import Mathlib

/-!
Shallow embedding of the dispatch simulation in `Microgrid.py`
(class `AdvancedEconomicSim`, method `update_logic`).

Python floats are modelled as real numbers.  The only fallible
operation in `update_logic` is the float division `soc / b_cap`
(Python raises `ZeroDivisionError` when the denominator is zero),
so the hourly loop is embedded as an `Except`-valued fold; the
arithmetic of each hour is also exposed as total functions
(`dispatch`, `socAt`, `flowAt`, `costUpTo`) that agree with the
fallible run whenever the division succeeds.
-/

namespace Microgrid

open Classical

noncomputable section

/-- Source: `self.grid_buy_price = 0.15` in `__init__`. -/
def grid_buy_price : ℝ := 0.15

/-- Source: `self.grid_sell_price = 0.08` in `__init__`. -/
def grid_sell_price : ℝ := 0.08

/-- The five scalar arguments of `update_logic` plus the two mode
flags (`self.grid_active`, `self.scheduler_active`) read inside it. -/
structure Config where
  s_mul : ℝ
  w_mul : ℝ
  d_mul : ℝ
  l_mul : ℝ
  b_cap : ℝ
  grid_active : Bool
  scheduler_active : Bool

/-- Source: `self.solar = s_mul * np.exp(-((self.hours - 12)**2) / (2 * 3**2))`. -/
def solar (c : Config) (h : ℕ) : ℝ :=
  c.s_mul * Real.exp (-(((h : ℝ) - 12) ^ 2) / (2 * 3 ^ 2))

/-- Source: `self.wind = w_mul * (0.6 + 0.4 * np.sin(self.hours / 4))`. -/
def wind (c : Config) (h : ℕ) : ℝ :=
  c.w_mul * (0.6 + 0.4 * Real.sin ((h : ℝ) / 4))

/-- Source: `self.load = l_mul * (1 + 0.8 * np.exp(-((self.hours - 9)**2)/2)
  + 1.2 * np.exp(-((self.hours - 19)**2)/4))`. -/
def load (c : Config) (h : ℕ) : ℝ :=
  c.l_mul * (1 + 0.8 * Real.exp (-(((h : ℝ) - 9) ^ 2) / 2)
    + 1.2 * Real.exp (-(((h : ℝ) - 19) ^ 2) / 4))

/-- Source: `gen = self.solar[h] + self.wind[h] + d_mul`. -/
def gen (c : Config) (h : ℕ) : ℝ := solar c h + wind c h + c.d_mul

/-- Source: `net = gen - self.load[h]`. -/
def net (c : Config) (h : ℕ) : ℝ := gen c h - load c h

/-- The branch body of one loop iteration of `update_logic`: given the
state of charge before hour `h`, it returns the state of charge after
hour `h` together with the hour's grid flow.  Python's three-argument
`min(a, b, c)` is `min a (min b c)`. -/
def dispatch (c : Config) (h : ℕ) (soc : ℝ) : ℝ × ℝ :=
  if c.scheduler_active ∧ 10 ≤ h ∧ h ≤ 14 then
    let charge_power := min 25.0 (c.b_cap - soc)
    (soc + charge_power, if c.grid_active then charge_power - net c h else 0)
  else if 0 < net c h then
    let charge := min (net c h) (min (c.b_cap - soc) 20.0)
    (soc + charge, if c.grid_active then -(net c h - charge) else 0)
  else
    let needed := |net c h|
    let disch := min needed (min soc 20.0)
    (soc - disch, if c.grid_active then needed - disch else 0)

/-- The running `soc` variable of `update_logic`: `socAt c h` is its
value before hour `h` is processed (`socAt c 0` is the seed
`soc = b_cap * 0.5`, `socAt c 24` the final value). -/
def socAt (c : Config) : ℕ → ℝ
  | 0 => c.b_cap * 0.5
  | h + 1 => (dispatch c h (socAt c h)).1

/-- The `flow` value appended to `self.grid_flow` at hour `h`. -/
def flowAt (c : Config) (h : ℕ) : ℝ := (dispatch c h (socAt c h)).2

/-- The value appended to `self.soc_history` at hour `h`:
`(soc / b_cap) * 100` with the post-update `soc`. -/
def soc_percent (c : Config) (h : ℕ) : ℝ := socAt c (h + 1) / c.b_cap * 100

/-- The running `self.total_cost` accumulator after the first `n`
hours have been processed. -/
def costUpTo (c : Config) : ℕ → ℝ
  | 0 => 0
  | h + 1 => costUpTo c h +
      (if 0 < flowAt c h then flowAt c h * grid_buy_price
       else flowAt c h * grid_sell_price)

/-- `self.total_cost` at the end of the 24-hour loop. -/
def total_cost (c : Config) : ℝ := costUpTo c 24

/-- The only exception `update_logic` can raise: Python float division
by zero. -/
inductive PyError where
  | zeroDivisionError

/-- Python float division, which raises `ZeroDivisionError` when the
denominator is zero. -/
def pyDiv (a b : ℝ) : Except PyError ℝ :=
  if b = 0 then .error .zeroDivisionError else .ok (a / b)

/-- The mutable state `update_logic` builds up across the loop. -/
structure RunState where
  soc : ℝ
  soc_history : List ℝ
  grid_flow : List ℝ
  total_cost : ℝ

/-- One iteration of the `for h in range(24)` loop: branch on the mode,
append the hour's flow, append `(soc / b_cap) * 100` (this is where a
zero `b_cap` raises), and accumulate the cost. -/
def hourStep (c : Config) (h : ℕ) (st : RunState) : Except PyError RunState :=
  let res := dispatch c h st.soc
  match pyDiv res.1 c.b_cap with
  | .error e => .error e
  | .ok pct =>
      .ok { soc := res.1
            soc_history := st.soc_history ++ [pct * 100]
            grid_flow := st.grid_flow ++ [res.2]
            total_cost := st.total_cost +
              (if 0 < res.2 then res.2 * grid_buy_price
               else res.2 * grid_sell_price) }

/-- The loop of `update_logic` after the first `n` hours, starting from
the seed `soc = b_cap * 0.5` and empty histories. -/
def runLoop (c : Config) : ℕ → Except PyError RunState
  | 0 => .ok ⟨c.b_cap * 0.5, [], [], 0⟩
  | n + 1 =>
      match runLoop c n with
      | .error e => .error e
      | .ok st => hourStep c n st

/-- The whole of `update_logic`: run all 24 hours. -/
def update_logic (c : Config) : Except PyError RunState := runLoop c 24

/-- The default slider values of `__init__`:
`init_solar, init_wind, init_diesel = 50.0, 20.0, 10.0`,
`init_load, init_batt = 30.0, 100.0`, grid active, scheduler off. -/
def defaultConfig : Config := ⟨50.0, 20.0, 10.0, 30.0, 100.0, true, false⟩

/-- The defaults with the smart scheduler toggled on. -/
def schedConfig : Config := ⟨50.0, 20.0, 10.0, 30.0, 100.0, true, true⟩

/-- The defaults in islanded mode (grid toggled off). -/
def islandConfig : Config := ⟨50.0, 20.0, 10.0, 30.0, 100.0, false, false⟩

/-- The defaults with a zero battery capacity. -/
def zeroCapConfig : Config := ⟨50.0, 20.0, 10.0, 30.0, 0.0, true, false⟩

/-- The defaults with a negative battery capacity. -/
def negCapConfig : Config := ⟨50.0, 20.0, 10.0, 30.0, -1.0, true, false⟩

end

/-! ### Relating the fallible run to the total per-hour functions -/

theorem runLoop_succ (c : Config) (n : ℕ) :
    runLoop c (n + 1) =
      match runLoop c n with
      | .error e => .error e
      | .ok st => hourStep c n st := rfl

/-- As long as `b_cap` is nonzero, no division raises and the loop
state after `n` hours is exactly described by `socAt`, `soc_percent`,
`flowAt` and `costUpTo`. -/
theorem runLoop_ok (c : Config) (hb : c.b_cap ≠ 0) (n : ℕ) :
    runLoop c n = .ok
      { soc := socAt c n
        soc_history := (List.range n).map (soc_percent c)
        grid_flow := (List.range n).map (flowAt c)
        total_cost := costUpTo c n } := by
  induction n with
  | zero => simp [runLoop, socAt, costUpTo]
  | succ n ih =>
      rw [runLoop_succ, ih]
      simp only [hourStep, pyDiv, hb, if_false, List.range_succ, List.map_append,
        List.map_cons, List.map_nil]
      rfl

/-- With `b_cap = 0`, hour `0` already raises `ZeroDivisionError` and the
error propagates through the rest of the loop. -/
theorem runLoop_err (c : Config) (hb : c.b_cap = 0) (n : ℕ) (hn : 1 ≤ n) :
    runLoop c n = .error .zeroDivisionError := by
  induction n with
  | zero => omega
  | succ n ih =>
      rcases Nat.eq_or_lt_of_le hn with h1 | h1
      · rw [runLoop_succ]
        have hn0 : n = 0 := by omega
        subst hn0
        simp [runLoop, hourStep, pyDiv, hb]
      · rw [runLoop_succ, ih (by omega)]

/-! ### Helper lemmas -/

/-- Every branch of the loop body clamps the charge or discharge so
that a state of charge inside `[0, b_cap]` stays inside `[0, b_cap]`. -/
theorem dispatch_soc_bounds (c : Config) (h : ℕ) (soc : ℝ)
    (h0 : 0 ≤ soc) (h1 : soc ≤ c.b_cap) :
    0 ≤ (dispatch c h soc).1 ∧ (dispatch c h soc).1 ≤ c.b_cap := by
  unfold dispatch
  by_cases hs : c.scheduler_active = true ∧ 10 ≤ h ∧ h ≤ 14
  · rw [if_pos hs]
    dsimp only
    have hm1 : (0 : ℝ) ≤ min 25.0 (c.b_cap - soc) :=
      le_min (by norm_num) (by linarith)
    have hm2 : min 25.0 (c.b_cap - soc) ≤ c.b_cap - soc := min_le_right _ _
    constructor <;> linarith
  · rw [if_neg hs]
    by_cases hn : 0 < net c h
    · rw [if_pos hn]
      dsimp only
      have hm1 : (0 : ℝ) ≤ min (net c h) (min (c.b_cap - soc) 20.0) :=
        le_min hn.le (le_min (by linarith) (by norm_num))
      have hm2 : min (net c h) (min (c.b_cap - soc) 20.0) ≤ c.b_cap - soc :=
        le_trans (min_le_right _ _) (min_le_left _ _)
      constructor <;> linarith
    · rw [if_neg hn]
      dsimp only
      have hm1 : min |net c h| (min soc 20.0) ≤ soc :=
        le_trans (min_le_right _ _) (min_le_left _ _)
      have hm2 : (0 : ℝ) ≤ min |net c h| (min soc 20.0) :=
        le_min (abs_nonneg _) (le_min h0 (by norm_num))
      constructor <;> linarith

/-- The battery invariant, carried by induction along the loop. -/
theorem socAt_bounds (c : Config) (hb : 0 < c.b_cap) (n : ℕ) :
    0 ≤ socAt c n ∧ socAt c n ≤ c.b_cap := by
  induction n with
  | zero =>
      constructor
      · show (0 : ℝ) ≤ c.b_cap * 0.5
        nlinarith
      · show c.b_cap * 0.5 ≤ c.b_cap
        nlinarith
  | succ n ih =>
      exact dispatch_soc_bounds c n (socAt c n) ih.1 ih.2

/-- Each branch returns a literal `0` flow when the grid is inactive. -/
theorem dispatch_flow_islanded (c : Config) (hg : c.grid_active = false)
    (h : ℕ) (soc : ℝ) : (dispatch c h soc).2 = 0 := by
  unfold dispatch
  split_ifs <;> simp_all

/-- The running cost accumulator equals the closed-form sum over the
hours processed so far. -/
theorem costUpTo_eq_sum (c : Config) (n : ℕ) :
    costUpTo c n = ∑ h ∈ Finset.range n,
      (if 0 < flowAt c h then flowAt c h * grid_buy_price
       else flowAt c h * grid_sell_price) := by
  induction n with
  | zero => simp [costUpTo]
  | succ n ih => rw [Finset.sum_range_succ, ← ih]; rfl

/-! ### Claims -/

/-- C1, counterexample: at `battery_capacity = -1 ≤ 0` the call does not
fail at all (there is no validation in `update_logic`), refuting the
claim that every input with `battery_capacity ≤ 0` fails with an
`InvalidConfiguration` error before the loop. -/
theorem no_invalid_configuration_check :
    negCapConfig.b_cap ≤ 0 ∧ (update_logic negCapConfig).isOk = true := by
  constructor
  · norm_num [negCapConfig]
  · rw [update_logic, runLoop_ok negCapConfig (by norm_num [negCapConfig]) 24]
    rfl

/-- C1 (amended): `update_logic` performs no configuration validation.
With `battery_capacity = 0` it fails with a `ZeroDivisionError` raised
inside the loop (at hour 0's percentage computation `(soc / b_cap) * 100`),
not with an `InvalidConfiguration` error before the loop; with any
nonzero `battery_capacity` — including negative values, and in
particular every input satisfying the Data Model invariants — it does
not fail. -/
theorem update_logic_failure_behavior (c : Config) :
    (c.b_cap = 0 → update_logic c = .error .zeroDivisionError) ∧
    (c.b_cap ≠ 0 → (update_logic c).isOk = true) := by
  constructor
  · intro hb
    exact runLoop_err c hb 24 (by norm_num)
  · intro hb
    rw [update_logic, runLoop_ok c hb 24]
    rfl

/-- C1, witness: with the default inputs but capacity `0` the run
raises `ZeroDivisionError`, and with the default inputs (capacity
`100`) it succeeds. -/
theorem update_logic_failure_behavior_witness :
    update_logic zeroCapConfig = .error .zeroDivisionError ∧
    (update_logic defaultConfig).isOk = true :=
  ⟨(update_logic_failure_behavior zeroCapConfig).1 (by norm_num [zeroCapConfig]),
   (update_logic_failure_behavior defaultConfig).2 (by norm_num [defaultConfig])⟩

/-- C2: for every input with positive battery capacity and non-negative
multipliers, the state of charge at the end of every hour `h < 24`
stays within `[0, battery_capacity]`, by construction of the
min-clamps on the charge and discharge amounts. -/
theorem soc_conservation (c : Config) (hb : 0 < c.b_cap)
    (hs : 0 ≤ c.s_mul) (hw : 0 ≤ c.w_mul) (hd : 0 ≤ c.d_mul)
    (hl : 0 ≤ c.l_mul) (h : ℕ) (hh : h < 24) :
    0 ≤ socAt c (h + 1) ∧ socAt c (h + 1) ≤ c.b_cap :=
  socAt_bounds c hb (h + 1)

/-- C2, witness: the invariant at the default inputs after hour 0. -/
theorem soc_conservation_witness :
    0 ≤ socAt defaultConfig (0 + 1) ∧
    socAt defaultConfig (0 + 1) ≤ defaultConfig.b_cap :=
  soc_conservation defaultConfig (by norm_num [defaultConfig])
    (by norm_num [defaultConfig]) (by norm_num [defaultConfig])
    (by norm_num [defaultConfig]) (by norm_num [defaultConfig])
    0 (by norm_num)

/-- C3: with the grid disconnected, every hour's recorded grid flow is
`0` — the `else 0` arm of every branch — and the accumulated total
cost is `0`. -/
theorem islanded_run (c : Config) (hg : c.grid_active = false) :
    (∀ h, h < 24 → flowAt c h = 0) ∧ total_cost c = 0 := by
  have hf : ∀ h, flowAt c h = 0 := fun h => dispatch_flow_islanded c hg h _
  refine ⟨fun h _ => hf h, ?_⟩
  unfold total_cost
  rw [costUpTo_eq_sum]
  apply Finset.sum_eq_zero
  intro h _
  rw [hf h]
  simp

/-- C3, witness: the islanding property at the default inputs with the
grid toggled off. -/
theorem islanded_run_witness :
    (∀ h, h < 24 → flowAt islandConfig h = 0) ∧
    total_cost islandConfig = 0 :=
  islanded_run islandConfig rfl

/-- C10: for every input with positive battery capacity and
non-negative multipliers, every recorded state-of-charge percentage
lies in `[0, 100]`. -/
theorem soc_percent_in_range (c : Config) (hb : 0 < c.b_cap)
    (hs : 0 ≤ c.s_mul) (hw : 0 ≤ c.w_mul) (hd : 0 ≤ c.d_mul)
    (hl : 0 ≤ c.l_mul) (h : ℕ) (hh : h < 24) :
    0 ≤ soc_percent c h ∧ soc_percent c h ≤ 100 := by
  obtain ⟨h0, h1⟩ := socAt_bounds c hb (h + 1)
  unfold soc_percent
  constructor
  · exact mul_nonneg (div_nonneg h0 hb.le) (by norm_num)
  · have hle : socAt c (h + 1) / c.b_cap ≤ 1 := (div_le_one hb).2 h1
    linarith

/-- C10, witness: the percentage range at the default inputs at hour 0. -/
theorem soc_percent_in_range_witness :
    0 ≤ soc_percent defaultConfig 0 ∧ soc_percent defaultConfig 0 ≤ 100 :=
  soc_percent_in_range defaultConfig (by norm_num [defaultConfig])
    (by norm_num [defaultConfig]) (by norm_num [defaultConfig])
    (by norm_num [defaultConfig]) (by norm_num [defaultConfig])
    0 (by norm_num)

/-- C4: with the scheduler active, in every hour of the window
`[10, 14]` the battery is force-charged: the change in state of charge
is `min 25.0 (battery_capacity - soc_before)` whatever the sign of
`net`, and when grid-connected the hour's flow is that charge power
minus `net`. -/
theorem scheduler_override (c : Config) (hsch : c.scheduler_active = true)
    (h : ℕ) (h10 : 10 ≤ h) (h14 : h ≤ 14) :
    socAt c (h + 1) - socAt c h = min 25.0 (c.b_cap - socAt c h) ∧
    (c.grid_active = true →
      flowAt c h = min 25.0 (c.b_cap - socAt c h) - net c h) := by
  have hd : dispatch c h (socAt c h) =
      (socAt c h + min 25.0 (c.b_cap - socAt c h),
       if c.grid_active then min 25.0 (c.b_cap - socAt c h) - net c h
       else 0) := by
    unfold dispatch
    rw [if_pos ⟨hsch, h10, h14⟩]
  constructor
  · show (dispatch c h (socAt c h)).1 - socAt c h = _
    rw [hd]
    dsimp only
    ring
  · intro hg
    show (dispatch c h (socAt c h)).2 = _
    rw [hd]
    dsimp only
    rw [if_pos hg]

/-- C4, witness: the forced charge at hour 12 with the scheduler on. -/
theorem scheduler_override_witness :
    socAt schedConfig (12 + 1) - socAt schedConfig 12
        = min 25.0 (schedConfig.b_cap - socAt schedConfig 12) ∧
    (schedConfig.grid_active = true →
      flowAt schedConfig 12
        = min 25.0 (schedConfig.b_cap - socAt schedConfig 12)
            - net schedConfig 12) :=
  scheduler_override schedConfig rfl 12 (by norm_num) (by norm_num)

/-- C5: in every reactive hour (scheduler off, or the hour outside
`[10, 14]`): on a surplus the battery charges by
`min net (min (battery_capacity - soc) 20.0)` with flow
`-(net - charge)` when grid-connected; on a deficit it discharges by
`min |net| (min soc 20.0)` with flow `|net| - discharge` when
grid-connected. -/
theorem reactive_dispatch (c : Config) (h : ℕ)
    (hre : ¬(c.scheduler_active = true ∧ 10 ≤ h ∧ h ≤ 14)) :
    (0 < net c h →
      socAt c (h + 1) - socAt c h
          = min (net c h) (min (c.b_cap - socAt c h) 20.0) ∧
      (c.grid_active = true →
        flowAt c h
          = -(net c h - min (net c h) (min (c.b_cap - socAt c h) 20.0)))) ∧
    (net c h ≤ 0 →
      socAt c h - socAt c (h + 1)
          = min |net c h| (min (socAt c h) 20.0) ∧
      (c.grid_active = true →
        flowAt c h = |net c h| - min |net c h| (min (socAt c h) 20.0))) := by
  constructor
  · intro hn
    have hd : dispatch c h (socAt c h) =
        (socAt c h + min (net c h) (min (c.b_cap - socAt c h) 20.0),
         if c.grid_active then
           -(net c h - min (net c h) (min (c.b_cap - socAt c h) 20.0))
         else 0) := by
      unfold dispatch
      rw [if_neg hre, if_pos hn]
    constructor
    · show (dispatch c h (socAt c h)).1 - socAt c h = _
      rw [hd]
      dsimp only
      ring
    · intro hg
      show (dispatch c h (socAt c h)).2 = _
      rw [hd]
      dsimp only
      rw [if_pos hg]
  · intro hn
    have hd : dispatch c h (socAt c h) =
        (socAt c h - min |net c h| (min (socAt c h) 20.0),
         if c.grid_active then
           |net c h| - min |net c h| (min (socAt c h) 20.0)
         else 0) := by
      unfold dispatch
      rw [if_neg hre, if_neg (not_lt.2 hn)]
    constructor
    · show socAt c h - (dispatch c h (socAt c h)).1 = _
      rw [hd]
      dsimp only
      ring
    · intro hg
      show (dispatch c h (socAt c h)).2 = _
      rw [hd]
      dsimp only
      rw [if_pos hg]

/-- C5, witness: the reactive dispatch at hour 0 with the default
inputs (scheduler off). -/
theorem reactive_dispatch_witness :
    (0 < net defaultConfig 0 →
      socAt defaultConfig (0 + 1) - socAt defaultConfig 0
          = min (net defaultConfig 0)
              (min (defaultConfig.b_cap - socAt defaultConfig 0) 20.0) ∧
      (defaultConfig.grid_active = true →
        flowAt defaultConfig 0
          = -(net defaultConfig 0 - min (net defaultConfig 0)
              (min (defaultConfig.b_cap - socAt defaultConfig 0) 20.0)))) ∧
    (net defaultConfig 0 ≤ 0 →
      socAt defaultConfig 0 - socAt defaultConfig (0 + 1)
          = min |net defaultConfig 0| (min (socAt defaultConfig 0) 20.0) ∧
      (defaultConfig.grid_active = true →
        flowAt defaultConfig 0
          = |net defaultConfig 0|
              - min |net defaultConfig 0| (min (socAt defaultConfig 0) 20.0))) :=
  reactive_dispatch defaultConfig 0 (by decide)

/-- C9: with the grid connected, in every branch the per-hour energy
balance holds: the battery's change in charge over hour `h` equals
`(gen - load) + grid_flow`. -/
theorem hourly_energy_balance (c : Config) (hg : c.grid_active = true)
    (h : ℕ) (hh : h < 24) :
    socAt c (h + 1) - socAt c h = (gen c h - load c h) + flowAt c h := by
  have h1 : socAt c (h + 1) = (dispatch c h (socAt c h)).1 := rfl
  rw [h1]
  unfold flowAt dispatch
  by_cases hs : c.scheduler_active = true ∧ 10 ≤ h ∧ h ≤ 14
  · rw [if_pos hs]
    dsimp only
    rw [if_pos hg]
    unfold net
    ring
  · rw [if_neg hs]
    by_cases hn : 0 < net c h
    · rw [if_pos hn]
      dsimp only
      rw [if_pos hg]
      unfold net
      ring
    · rw [if_neg hn]
      dsimp only
      rw [if_pos hg, abs_of_nonpos (not_lt.1 hn)]
      unfold net
      ring

/-- C9, witness: the energy balance at hour 0 with the default inputs. -/
theorem hourly_energy_balance_witness :
    socAt defaultConfig (0 + 1) - socAt defaultConfig 0
      = (gen defaultConfig 0 - load defaultConfig 0) + flowAt defaultConfig 0 :=
  hourly_energy_balance defaultConfig rfl 0 (by norm_num)

/-- C6: the total cost is the sum over the 24 hours of
`flow * 0.15` when the flow is positive (import) and `flow * 0.08`
otherwise (export subtracts revenue, zero flow contributes 0), and the
tariff constants are fixed at `0.15` and `0.08`. -/
theorem total_cost_tariff_sum (c : Config) :
    grid_buy_price = 0.15 ∧ grid_sell_price = 0.08 ∧
    total_cost c = ∑ h ∈ Finset.range 24,
      (if 0 < flowAt c h then flowAt c h * 0.15 else flowAt c h * 0.08) := by
  refine ⟨rfl, rfl, ?_⟩
  unfold total_cost
  rw [costUpTo_eq_sum]
  simp only [grid_buy_price, grid_sell_price]

/-- C7: the battery is seeded at exactly half capacity before hour 0,
and the recorded percentage at index `h` of the run's `soc_history` is
`100 * soc / battery_capacity` computed from the post-update state of
charge, so hour 0's entry already reflects hour 0's charge or
discharge. -/
theorem seed_and_post_update_percent (c : Config) (hb : 0 < c.b_cap) :
    socAt c 0 = 0.5 * c.b_cap ∧
    ∀ st, update_logic c = .ok st →
      ∀ h, h < 24 →
        st.soc_history[h]? = some (100 * socAt c (h + 1) / c.b_cap) := by
  constructor
  · show c.b_cap * 0.5 = 0.5 * c.b_cap
    ring
  · intro st hst h hh
    rw [update_logic, runLoop_ok c hb.ne'] at hst
    injection hst with h1
    subst h1
    show ((List.range 24).map (soc_percent c))[h]? = _
    rw [List.getElem?_map, List.getElem?_range hh]
    have hp : soc_percent c h = 100 * socAt c (h + 1) / c.b_cap := by
      unfold soc_percent
      ring
    rw [Option.map_some', hp]

/-- C7, witness: the seed and the hour-0 recorded percentage at the
default inputs. -/
theorem seed_and_post_update_percent_witness :
    socAt defaultConfig 0 = 0.5 * defaultConfig.b_cap ∧
    ∀ st, update_logic defaultConfig = .ok st →
      ∀ h, h < 24 →
        st.soc_history[h]?
          = some (100 * socAt defaultConfig (h + 1) / defaultConfig.b_cap) :=
  seed_and_post_update_percent defaultConfig (by norm_num [defaultConfig])

/-- C8: for every non-negative wind multiplier and hour `h < 24`, the
wind profile is `w_mul * (0.6 + 0.4 * sin (h / 4))` and lies between
`0.2` and `1.0` times the multiplier. -/
theorem wind_profile_bounds (c : Config) (hw : 0 ≤ c.w_mul)
    (h : ℕ) (hh : h < 24) :
    wind c h = c.w_mul * (0.6 + 0.4 * Real.sin ((h : ℝ) / 4)) ∧
    0.2 * c.w_mul ≤ wind c h ∧ wind c h ≤ 1.0 * c.w_mul := by
  have h1 : (-1 : ℝ) ≤ Real.sin ((h : ℝ) / 4) := Real.neg_one_le_sin _
  have h2 : Real.sin ((h : ℝ) / 4) ≤ 1 := Real.sin_le_one _
  refine ⟨rfl, ?_, ?_⟩
  · unfold wind
    nlinarith [mul_nonneg hw (by linarith : (0 : ℝ) ≤ 1 + Real.sin ((h : ℝ) / 4))]
  · unfold wind
    nlinarith [mul_nonneg hw (by linarith : (0 : ℝ) ≤ 1 - Real.sin ((h : ℝ) / 4))]

/-- C8, witness: the wind profile bounds at the default inputs at
hour 0. -/
theorem wind_profile_bounds_witness :
    wind defaultConfig 0
        = defaultConfig.w_mul * (0.6 + 0.4 * Real.sin ((0 : ℕ) / 4 : ℝ)) ∧
    0.2 * defaultConfig.w_mul ≤ wind defaultConfig 0 ∧
    wind defaultConfig 0 ≤ 1.0 * defaultConfig.w_mul :=
  wind_profile_bounds defaultConfig (by norm_num [defaultConfig]) 0 (by norm_num)

end Microgrid
